import Mathlib

/-!
Verification of the ASL-App backend core against its specification.

The development shallowly embeds the Python source:

* `Sha256` — executable SHA-256 over byte lists, modelling Python's
  `hashlib.sha256(...).hexdigest()` as used by `database.hash_ip` and
  `cache.generate_cache_key`;
* `Py` — tiny helpers for Python truthiness / `or` / `str.lower`;
* `Database` — `database.py`: `hash_ip`, the `Feedback` and `Analytics`
  rows, `create_feedback`, `create_analytics_event`,
  `get_shared_key_usage_today`, `check_shared_key_rate_limit` (the SQL
  store is an explicit list of rows, timestamps are naturals);
* `Cache` — `cache.py`: the Redis store as a key/value map with expiry,
  `generate_cache_key`, `get_cached_translation`, `cache_translation`,
  `init_redis` (the `json.dumps` / `json.loads` marshalling boundary is
  modelled at the JSON-value level, where it is the identity);
* `LangGraphASL` — `python_code/asl_dict_langgraph.py`: the workflow
  state, the three nodes with the LLM calls as oracle parameters, the
  conditional router and the compiled graph's execution;
* `AppApi` — `app.py`: request validation models, the credential
  decision of `translate_to_asl`, the feedback endpoints, the analytics
  event fired after a successful translation, and the
  `GOOGLE_API_KEY` set/restore bracket around the graph invocation.
-/

namespace Sha256

/-- Mask keeping the low 32 bits. -/
def mask32 : Nat := 4294967295

/-- Addition modulo 2^32. -/
def add32 (a b : Nat) : Nat := (a + b) % 4294967296

/-- Right rotation of a 32-bit word (input assumed < 2^32). -/
def rotr (n x : Nat) : Nat := (x >>> n) ||| ((x <<< (32 - n)) &&& mask32)

/-- Bitwise choice function of the SHA-256 round. -/
def ch (e f g : Nat) : Nat := (e &&& f) ^^^ ((e ^^^ mask32) &&& g)

/-- Bitwise majority function of the SHA-256 round. -/
def maj (a b c : Nat) : Nat := (a &&& b) ^^^ (a &&& c) ^^^ (b &&& c)

/-- Big sigma-0 of the SHA-256 round. -/
def bigSigma0 (x : Nat) : Nat := rotr 2 x ^^^ rotr 13 x ^^^ rotr 22 x

/-- Big sigma-1 of the SHA-256 round. -/
def bigSigma1 (x : Nat) : Nat := rotr 6 x ^^^ rotr 11 x ^^^ rotr 25 x

/-- Small sigma-0 of the message schedule. -/
def smallSigma0 (x : Nat) : Nat := rotr 7 x ^^^ rotr 18 x ^^^ (x >>> 3)

/-- Small sigma-1 of the message schedule. -/
def smallSigma1 (x : Nat) : Nat := rotr 17 x ^^^ rotr 19 x ^^^ (x >>> 10)

/-- Round constants of SHA-256 (FIPS 180-4), written in decimal. -/
def roundConstants : List Nat :=
  [1116352408, 1899447441, 3049323471, 3921009573, 961987163, 1508970993,
   2453635748, 2870763221, 3624381080, 310598401, 607225278, 1426881987,
   1925078388, 2162078206, 2614888103, 3248222580, 3835390401, 4022224774,
   264347078, 604807628, 770255983, 1249150122, 1555081692, 1996064986,
   2554220882, 2821834349, 2952996808, 3210313671, 3336571891, 3584528711,
   113926993, 338241895, 666307205, 773529912, 1294757372, 1396182291,
   1695183700, 1986661051, 2177026350, 2456956037, 2730485921, 2820302411,
   3259730800, 3345764771, 3516065817, 3600352804, 4094571909, 275423344,
   430227734, 506948616, 659060556, 883997877, 958139571, 1322822218,
   1537002063, 1747873779, 1955562222, 2024104815, 2227730452, 2361852424,
   2428436474, 2756734187, 3204031479, 3329325298]

/-- Working state of the compression function (eight 32-bit words). -/
structure Digest8 where
  a : Nat
  b : Nat
  c : Nat
  d : Nat
  e : Nat
  f : Nat
  g : Nat
  h : Nat

/-- Initial hash value of SHA-256 (FIPS 180-4), written in decimal. -/
def initialHash : Digest8 :=
  ⟨1779033703, 3144134277, 1013904242, 2773480762,
   1359893119, 2600822924, 528734635, 1541459225⟩

/-- Fixed-width big-endian byte decomposition of a natural number. -/
def toBytesBE : Nat → Nat → List Nat
  | 0, _ => []
  | k + 1, n => toBytesBE k (n / 256) ++ [n % 256]

/-- Padding of the message: append 0x80, zeros, and the 64-bit bit length,
so that the total length is a multiple of 64 bytes. -/
def padMessage (msg : List Nat) : List Nat :=
  let len := msg.length
  let zeros := (64 - ((len + 9) % 64)) % 64
  msg ++ (128 :: List.replicate zeros 0) ++ toBytesBE 8 (8 * len)

/-- Grouping of bytes into big-endian 32-bit words. -/
def bytesToWords : List Nat → List Nat
  | b0 :: b1 :: b2 :: b3 :: rest =>
      (((b0 * 256 + b1) * 256 + b2) * 256 + b3) :: bytesToWords rest
  | _ => []

/-- One step of the message-schedule extension: push word i from
words i-16, i-15, i-7, i-2. -/
def scheduleStep (w : Array Nat) : Array Nat :=
  let i := w.size
  let x := (w.getD (i - 16) 0 + smallSigma0 (w.getD (i - 15) 0)
            + w.getD (i - 7) 0 + smallSigma1 (w.getD (i - 2) 0)) % 4294967296
  w.push x

/-- Iterated message-schedule extension. -/
def extendWords : Nat → Array Nat → Array Nat
  | 0, w => w
  | k + 1, w => extendWords k (scheduleStep w)

/-- Complete 64-word message schedule of one 64-byte chunk. -/
def messageSchedule (chunk : List Nat) : List Nat :=
  (extendWords 48 (List.toArray (bytesToWords chunk))).toList

/-- One round of the compression function. -/
def compressStep (st : Digest8) (kw : Nat × Nat) : Digest8 :=
  let t1 := (st.h + bigSigma1 st.e + ch st.e st.f st.g + kw.1 + kw.2) % 4294967296
  let t2 := (bigSigma0 st.a + maj st.a st.b st.c) % 4294967296
  { a := (t1 + t2) % 4294967296, b := st.a, c := st.b, d := st.c,
    e := (st.d + t1) % 4294967296, f := st.e, g := st.f, h := st.g }

/-- Compression of one 64-byte chunk into the running hash value. -/
def compressChunk (st : Digest8) (chunk : List Nat) : Digest8 :=
  let ws := messageSchedule chunk
  let r := (roundConstants.zip ws).foldl compressStep st
  { a := add32 st.a r.a, b := add32 st.b r.b, c := add32 st.c r.c, d := add32 st.d r.d,
    e := add32 st.e r.e, f := add32 st.f r.f, g := add32 st.g r.g, h := add32 st.h r.h }

/-- Fuelled split of a byte list into 64-byte chunks. -/
def chunkList : Nat → List Nat → List (List Nat)
  | 0, _ => []
  | _ + 1, [] => []
  | fuel + 1, l => l.take 64 :: chunkList fuel (l.drop 64)

/-- SHA-256 digest of a byte list, as eight 32-bit words. -/
def sha256Words (msg : List Nat) : List Nat :=
  let padded := padMessage msg
  let r := (chunkList padded.length padded).foldl compressChunk initialHash
  [r.a, r.b, r.c, r.d, r.e, r.f, r.g, r.h]

/-- Lower-case hexadecimal digit characters. -/
def hexDigits : List Char := "0123456789abcdef".data

/-- Hexadecimal character for a value below 16. -/
def hexChar (n : Nat) : Char := hexDigits.getD n '0'

/-- Fixed-width big-endian hexadecimal rendering of a natural number. -/
def toHexFixed : Nat → Nat → List Char
  | 0, _ => []
  | k + 1, n => toHexFixed k (n / 16) ++ [hexChar (n % 16)]

/-- Hexadecimal rendering of a word list, eight digits per word. -/
def hexOfWords (ws : List Nat) : List Char := (ws.map (toHexFixed 8)).flatten

/-- Model of `hashlib.sha256(msg).hexdigest()`. -/
def hexdigest (msg : List Nat) : String := String.mk (hexOfWords (sha256Words msg))

/-- Boolean check that every character of a string is a lower-case hex digit. -/
def isHexString (s : String) : Bool := s.data.all (fun c => decide (c ∈ hexDigits))

end Sha256

namespace Py

/-- Truthiness of an optional string: Python treats both `None` and the empty
string as falsy. -/
def truthyOptStr : Option String → Bool
  | none => false
  | some s => s != ""

/-- Python `x or y` where x is an optional string: yields y when x is `None`
or empty, x itself otherwise. -/
def orElseStr (x : Option String) (d : String) : String :=
  match x with
  | none => d
  | some s => if s == "" then d else s

/-- Python `s != other` where other may be `None` (a string never equals
`None`). -/
def neOpt (s : String) (o : Option String) : Bool :=
  match o with
  | none => true
  | some t => s != t

/-- Case folding modelling Python `str.lower` (ASCII letters; on other
characters both sides of the embedding apply the same map). -/
def lower (s : String) : String := String.mk (s.data.map Char.toLower)

/-- UTF-8 encoding of one character as bytes. -/
def utf8Char (c : Char) : List Nat :=
  let n := c.toNat
  if n < 128 then [n]
  else if n < 2048 then [192 ||| (n >>> 6), 128 ||| (n &&& 63)]
  else if n < 65536 then
    [224 ||| (n >>> 12), 128 ||| ((n >>> 6) &&& 63), 128 ||| (n &&& 63)]
  else
    [240 ||| (n >>> 18), 128 ||| ((n >>> 12) &&& 63), 128 ||| ((n >>> 6) &&& 63), 128 ||| (n &&& 63)]

/-- UTF-8 encoding of a string, modelling Python `str.encode()`. -/
def encodeUtf8 (s : String) : List Nat := (s.data.map utf8Char).flatten

end Py

namespace Database

/-- Model of `database.hash_ip`: `hashlib.sha256(ip.encode()).hexdigest()`. -/
def hash_ip (ip : String) : String := Sha256.hexdigest (Py.encodeUtf8 ip)

/-- Row of the `feedback` table. The `timestamp` column (filled by the
`utcnow` default at insertion) is an abstract tick passed as `now`. -/
structure Feedback where
  query : Option String
  rating : Option String
  feedback_text : Option String
  ip_hash : Option String
  timestamp : Nat
  feedback_type : String
  category : Option String
  email : Option String
deriving DecidableEq

/-- Model of `database.create_feedback`: builds the inserted row.
The stored `ip_hash` is `hash_ip(ip_address) if ip_address else None`. -/
def create_feedback (query rating feedback_text ip_address : Option String)
    (feedback_type : String) (category email : Option String) (now : Nat) : Feedback :=
  { query := query
    rating := rating
    feedback_text := feedback_text
    ip_hash :=
      match ip_address with
      | some ip => if ip != "" then some (hash_ip ip) else none
      | none => none
    timestamp := now
    feedback_type := feedback_type
    category := category
    email := email }

/-- Row of the `analytics` table. -/
structure Analytics where
  event_type : String
  ip_hash : String
  query : Option String
  cache_hit : Option Bool
  user_agent : Option String
  endpoint : Option String
  response_time_ms : Option Nat
  timestamp : Nat
deriving DecidableEq

/-- Model of `database.create_analytics_event`: appends one row to the
append-only log; returns the new log and the created row. -/
def create_analytics_event (events : List Analytics) (event_type : String)
    (ip_address : String) (query : Option String) (cache_hit : Option Bool)
    (user_agent endpoint : Option String) (response_time_ms : Option Nat)
    (now : Nat) : List Analytics × Analytics :=
  let e : Analytics :=
    { event_type := event_type, ip_hash := hash_ip ip_address, query := query,
      cache_hit := cache_hit, user_agent := user_agent, endpoint := endpoint,
      response_time_ms := response_time_ms, timestamp := now }
  (events ++ [e], e)

/-- Model of `database.get_shared_key_usage_today`: count of `analytics`
rows with this `ip_hash`, event type "translation" and timestamp at or
after the most recent UTC midnight (`today_start`). -/
def get_shared_key_usage_today (events : List Analytics) (ip_hash : String)
    (today_start : Nat) : Nat :=
  (events.filter (fun e =>
    e.ip_hash == ip_hash && e.event_type == "translation"
      && decide (today_start ≤ e.timestamp))).length

/-- Result dict of `check_shared_key_rate_limit`. -/
structure RateLimitInfo where
  allowed : Bool
  used : Nat
  limit : Nat
  remaining : Nat
deriving DecidableEq

/-- Model of `database.check_shared_key_rate_limit`. -/
def check_shared_key_rate_limit (events : List Analytics) (ip_hash : String)
    (today_start daily_limit : Nat) : RateLimitInfo :=
  let used := get_shared_key_usage_today events ip_hash today_start
  { allowed := decide (used < daily_limit)
    used := used
    limit := daily_limit
    remaining := max 0 (daily_limit - used) }

end Database

/-- JSON values, modelling the dicts that pass through `json.dumps` and
`json.loads`. The marshalling pair is the identity at this level (Python's
`json` stdlib round-trips JSON-representable dicts exactly), so the cache
model stores the JSON value itself. -/
inductive Json where
  | null
  | bool (b : Bool)
  | num (n : Int)
  | str (s : String)
  | arr (items : List Json)
  | obj (fields : List (String × Json))

namespace Cache

/-- One Redis value with its expiry instant. -/
structure CacheEntry where
  value : Json
  expires_at : Nat

/-- State of the Redis key space. -/
def RedisStore := String → Option CacheEntry

/-- Model of redis `SETEX key ttl value` at time `now`. -/
def setex (st : RedisStore) (key : String) (ttl : Nat) (v : Json) (now : Nat) : RedisStore :=
  fun k => if k = key then some { value := v, expires_at := now + ttl } else st k

/-- Model of redis `GET` with expiry: a key past its expiry is absent. -/
def redisGet (st : RedisStore) (key : String) (now : Nat) : Option Json :=
  match st key with
  | some e => if now < e.expires_at then some e.value else none
  | none => none

/-- Model of `cache.generate_cache_key` with its key-space parameter fixed to
the default "asl:translation" (the only value the code uses): the key is the
first 16 hex digits of the SHA-256 of the lower-cased text. -/
def generate_cache_key (text : String) : String :=
  let text_hash := String.mk ((Sha256.hexdigest (Py.encodeUtf8 (Py.lower text))).data.take 16)
  "asl:translation:" ++ text_hash

/-- Model of `cache.init_redis`: no configured URL disables caching;
`connect` is the outcome of `from_url` plus `ping`, and any connection
failure also disables caching. -/
def init_redis (redis_url : String) (connect : Except String RedisStore) : Option RedisStore :=
  if redis_url = "" then none
  else
    match connect with
    | .ok st => some st
    | .error _ => none

/-- Model of `cache.get_cached_translation`. `raised` stands for an
exception thrown inside the try block by the awaited redis GET or by
`json.loads` (none when no exception occurs). -/
def get_cached_translation (client : Option RedisStore) (raised : Option String)
    (now : Nat) (text : String) : Option Json :=
  match client with
  | none => none
  | some st =>
    match raised with
    | some _ => none
    | none =>
      match redisGet st (generate_cache_key text) now with
      | some data => some data
      | none => none

/-- Model of `cache.cache_translation`: best-effort SETEX under the
normalized key; returns the new client state and the success flag.
`raised` stands for an exception thrown inside the try block. -/
def cache_translation (client : Option RedisStore) (raised : Option String)
    (now ttl : Nat) (text : String) (translation_data : Json) :
    Option RedisStore × Bool :=
  match client with
  | none => (none, false)
  | some st =>
    match raised with
    | some _ => (some st, false)
    | none => (some (setex st (generate_cache_key text) ttl translation_data now), true)

end Cache

namespace LangGraphASL

/-- Pydantic schema of one sign description. -/
structure DescriptionSchema where
  word : String
  hand_shape : String
  location : String
  movement : String
  non_manual_markers : String
deriving DecidableEq

/-- Pydantic schema of the instructor's structured output. -/
structure SentenceDescriptionSchema where
  signs : List DescriptionSchema
  note : String
deriving DecidableEq

/-- Pydantic schema of the grammar agent's planning output. -/
structure GrammarPlanSchema where
  should_reorder : Bool
  asl_gloss_order : String
deriving DecidableEq

/-- Graph state `ASLState` (a TypedDict): keys missing from the dict are
`none`; the initial state carries only `english_input`. -/
structure ASLState where
  english_input : String
  translated_input : Option String
  final_output : Option SentenceDescriptionSchema
  grammar_plan : Option GrammarPlanSchema
  error : Option String
deriving DecidableEq

/-- Runtime failures of the LangGraph engine itself: a KeyError from reading
a missing state key, or a conditional edge whose router returned a label
absent from the registered path map. Both abort `graph.invoke` with an
exception instead of producing a final state. -/
inductive GraphError where
  | keyError (key : String)
  | unknownBranch (label : String)
deriving DecidableEq

/-- Model of `grammar_planner_node`; the LLM structured-output call is the
`llm` oracle (`ok plan`, or `error e` for a raised exception with message
`e`, which the node catches and writes into the `error` key). -/
def grammar_planner_node (llm : Except String GrammarPlanSchema) (s : ASLState) : ASLState :=
  match llm with
  | .ok plan => { s with grammar_plan := some plan }
  | .error e => { s with error := some e }

/-- Model of `reorder_node`: copies `asl_gloss_order` from the plan into
`translated_input`; subscripting a missing `grammar_plan` key is a KeyError. -/
def reorder_node (s : ASLState) : Except GraphError ASLState :=
  match s.grammar_plan with
  | none => .error (.keyError "grammar_plan")
  | some plan => .ok { s with translated_input := some plan.asl_gloss_order }

/-- Text handed to the describing LLM call:
`state.get("translated_input") or state["english_input"]`. -/
def instructorInput (s : ASLState) : String :=
  Py.orElseStr s.translated_input s.english_input

/-- Model of `sign_instructor_node`; the `llm` oracle maps the input text it
is invoked with to the structured output or to a raised error's message. -/
def sign_instructor_node (llm : String → Except String SentenceDescriptionSchema)
    (s : ASLState) : ASLState :=
  match llm (instructorInput s) with
  | .ok r => { s with final_output := some r }
  | .error e => { s with error := some e }

/-- Model of `decide_to_reorder`: on a truthy `error` key it returns the
label "end_with_error"; otherwise it branches on the plan's boolean
(subscripting a missing `grammar_plan` key is a KeyError). -/
def decide_to_reorder (s : ASLState) : Except GraphError String :=
  if Py.truthyOptStr s.error then .ok "end_with_error"
  else
    match s.grammar_plan with
    | none => .error (.keyError "grammar_plan")
    | some plan => .ok (if plan.should_reorder then "reorder_node" else "instruct_node")

/-- Path map registered by `build_asl_graph` for the conditional edge out of
`planner_node`: only "reorder_node" and "instruct_node" are wired. -/
def plannerPathMap : List (String × String) :=
  [("reorder_node", "reorder_node"), ("instruct_node", "instruct_node")]

/-- Execution of the graph compiled by `build_asl_graph` on an initial state
holding only `english_input`: run `planner_node`, route through the
conditional edge (a router label absent from the path map aborts the
invocation), then `reorder_node` when chosen, then `instruct_node`, then END. -/
def invokeGraph (plannerLLM : Except String GrammarPlanSchema)
    (instructorLLM : String → Except String SentenceDescriptionSchema)
    (english_input : String) : Except GraphError ASLState :=
  let s0 : ASLState :=
    { english_input := english_input, translated_input := none,
      final_output := none, grammar_plan := none, error := none }
  let s1 := grammar_planner_node plannerLLM s0
  match decide_to_reorder s1 with
  | .error err => .error err
  | .ok label =>
    match plannerPathMap.lookup label with
    | none => .error (.unknownBranch label)
    | some target =>
      if target = "reorder_node" then
        match reorder_node s1 with
        | .error err => .error err
        | .ok s2 => .ok (sign_instructor_node instructorLLM s2)
      else
        .ok (sign_instructor_node instructorLLM s1)

end LangGraphASL

namespace AppApi

/-- Request model of `POST /api/feedback`. -/
structure FeedbackRequest where
  query : String
  rating : String
  feedback_text : Option String
deriving DecidableEq

/-- Pydantic validation of `FeedbackRequest`: query length 1..500, rating
matching `^(up|down)$`, optional text of length at most 1000. -/
def FeedbackRequest.validB (r : FeedbackRequest) : Bool :=
  decide (1 ≤ r.query.length) && decide (r.query.length ≤ 500)
    && (r.rating == "up" || r.rating == "down")
    && (match r.feedback_text with
        | none => true
        | some t => decide (t.length ≤ 1000))

/-- Request model of `POST /api/feedback/general`. -/
structure GeneralFeedbackRequest where
  category : String
  feedback_text : String
  email : Option String
deriving DecidableEq

/-- Pydantic validation of `GeneralFeedbackRequest`: category matching
`^(bug|feature|general|ui_ux)$`, text length 10..2000, optional email of
length at most 255. -/
def GeneralFeedbackRequest.validB (r : GeneralFeedbackRequest) : Bool :=
  (r.category == "bug" || r.category == "feature" || r.category == "general"
      || r.category == "ui_ux")
    && decide (10 ≤ r.feedback_text.length) && decide (r.feedback_text.length ≤ 2000)
    && (match r.email with
        | none => true
        | some m => decide (m.length ≤ 255))

/-- Model of the `submit_feedback` endpoint body: the Feedback row it
creates (query, rating, optional text, the caller's IP; the default
feedback type "translation", no category, no email). -/
def submit_feedback (req : FeedbackRequest) (client_ip : String) (now : Nat) :
    Database.Feedback :=
  Database.create_feedback (some req.query) (some req.rating) req.feedback_text
    (some client_ip) "translation" none none now

/-- Model of the `submit_general_feedback` endpoint body: the Feedback row
it creates (text, the caller's IP, feedback type "general", category,
optional email; query and rating keep their `None` defaults). -/
def submit_general_feedback (req : GeneralFeedbackRequest) (client_ip : String)
    (now : Nat) : Database.Feedback :=
  Database.create_feedback none none (some req.feedback_text)
    (some client_ip) "general" (some req.category) req.email now

/-- Credential decision of `translate_to_asl` on a cache miss. -/
inductive ApiKeyDecision where
  | useCustom (key : String)
  | useShared (key : String) (info : Database.RateLimitInfo)
  | reject429 (info : Database.RateLimitInfo)
  | useDefault (key : String)
  | reject503
deriving DecidableEq

/-- Model of the credential decision of `translate_to_asl` (app.py
255-300): `custom` is the `X-Custom-API-Key` header (absent is `None`),
`shared` is `settings.shared_api_key` (a plain string, empty when not
configured), `original` is `os.environ.get("GOOGLE_API_KEY")`. The quota
check runs only on the shared-key branch. -/
def decideApiKey (custom : Option String) (shared : String) (original : Option String)
    (events : List Database.Analytics) (ip_hash : String)
    (today_start daily_limit : Nat) : ApiKeyDecision :=
  if Py.truthyOptStr custom then .useCustom (custom.getD "")
  else if shared != "" then
    let info := Database.check_shared_key_rate_limit events ip_hash today_start daily_limit
    if !info.allowed then .reject429 info
    else .useShared shared info
  else if Py.truthyOptStr original then .useDefault (original.getD "")
  else .reject503

/-- Raised HTTPException, by status code and detail. -/
structure HTTPError where
  status : Nat
  detail : String
deriving DecidableEq

/-- HTTP outcome of the credential decision: the selected key together with
the shared-key flag and quota info, or the raised HTTPException (429 when
over the shared-key ceiling, 503 when no credential is available). -/
def applyKeyDecision :
    ApiKeyDecision → Except HTTPError (String × Bool × Option Database.RateLimitInfo)
  | .useCustom k => .ok (k, false, none)
  | .useShared k info => .ok (k, true, some info)
  | .reject429 _ =>
      .error { status := 429,
               detail := "Daily limit of translations reached. Add your own API key for unlimited access." }
  | .useDefault k => .ok (k, false, none)
  | .reject503 =>
      .error { status := 503,
               detail := "Translation service unavailable. Please add your own API key." }

/-- Analytics event fired (as a background task) after every successful
non-cached translation (`log_translation` in app.py): event type
"translation" for the caller's IP — regardless of which credential served
the request, since the event carries no credential information. -/
def log_translation (events : List Database.Analytics) (ip text : String)
    (user_agent : Option String) (response_time_ms : Option Nat) (now : Nat) :
    List Database.Analytics :=
  (Database.create_analytics_event events "translation" ip (some text) (some false)
    user_agent (some "/api/translate") response_time_ms now).1

/-- Value of the `GOOGLE_API_KEY` environment variable after the set/restore
bracket of `translate_to_asl` (app.py 302-318): when the selected key
differs from `original`, the variable is set to the selected key for the
invocation and the `finally` block then restores `original` when truthy and
pops the variable otherwise; the invocation's outcome is irrelevant. -/
def env_after_translate (original : Option String) (api_key_to_use : String)
    (_outcome : Except String Unit) : Option String :=
  if Py.neOpt api_key_to_use original then
    match original with
    | some s => if s != "" then some s else none
    | none => none
  else original

end AppApi

/-- Concrete analytics row used by the concrete-input witnesses below. -/
def sampleEvent (h : String) (t : Nat) : Database.Analytics :=
  { event_type := "translation", ip_hash := h, query := some "hello",
    cache_hit := some false, user_agent := none, endpoint := some "/api/translate",
    response_time_ms := none, timestamp := t }

namespace Sha256

theorem toHexFixed_length (k : Nat) : ∀ n : Nat, (toHexFixed k n).length = k := by
  induction k with
  | zero => intro n; rfl
  | succ k ih => intro n; simp [toHexFixed, ih]

theorem hexOfWords_length (ws : List Nat) : (hexOfWords ws).length = 8 * ws.length := by
  induction ws with
  | nil => rfl
  | cons w ws ih =>
    simp [hexOfWords, List.flatten] at ih ⊢
    simp [toHexFixed_length, ih, Nat.mul_succ, Nat.mul_add]
    omega

theorem sha256Words_length (msg : List Nat) : (sha256Words msg).length = 8 := rfl

theorem hexChar_mem (n : Nat) (h : n < 16) : hexChar n ∈ hexDigits := by
  interval_cases n <;> decide

theorem toHexFixed_mem (k : Nat) :
    ∀ n c, c ∈ toHexFixed k n → c ∈ hexDigits := by
  induction k with
  | zero => intro n c hc; simp [toHexFixed] at hc
  | succ k ih =>
    intro n c hc
    simp only [toHexFixed, List.mem_append, List.mem_singleton] at hc
    rcases hc with hc | hc
    · exact ih _ _ hc
    · subst hc; exact hexChar_mem _ (Nat.mod_lt _ (by decide))

theorem hexdigest_length (msg : List Nat) : (hexdigest msg).length = 64 := by
  show (hexOfWords (sha256Words msg)).length = 64
  rw [hexOfWords_length, sha256Words_length]

theorem hexdigest_isHex (msg : List Nat) : isHexString (hexdigest msg) = true := by
  simp only [isHexString, hexdigest, List.all_eq_true, decide_eq_true_eq]
  intro c hc
  rcases List.mem_flatten.mp hc with ⟨l, hl, hcl⟩
  rcases List.mem_map.mp hl with ⟨w, _, rfl⟩
  exact toHexFixed_mem _ _ _ hcl

end Sha256

/-- C1: the claim says a failure of the Planning step ends the workflow in a
terminal state whose `error` field carries the failure message. On the code,
`decide_to_reorder` routes a truthy `error` to the label "end_with_error",
but `build_asl_graph` never registers that label in the conditional-edge
path map, so `graph.invoke` aborts with an engine error (unknown branch; a
planner exception with an empty message instead dies on the
`state["grammar_plan"]` KeyError) — it never produces a final state. -/
theorem c1_planner_failure_aborts_graph_invoke (e english : String)
    (instructorLLM : String → Except String LangGraphASL.SentenceDescriptionSchema) :
    LangGraphASL.invokeGraph (Except.error e) instructorLLM english
      = Except.error (if e = "" then LangGraphASL.GraphError.keyError "grammar_plan"
          else LangGraphASL.GraphError.unknownBranch "end_with_error") := by
  have hmap : LangGraphASL.plannerPathMap.lookup "end_with_error" = none := rfl
  by_cases he : e = ""
  · subst he; rfl
  · have hb : (e != "") = true := bne_iff_ne.mpr he
    simp [LangGraphASL.invokeGraph, LangGraphASL.grammar_planner_node,
          LangGraphASL.decide_to_reorder, Py.truthyOptStr, hb, he, hmap]

/-- C3: quota monotonicity of `check_shared_key_rate_limit`: with usage n
and ceiling L, n < L yields `{allowed := true, used := n, limit := L,
remaining := L - n}` and n ≥ L yields `{allowed := false, used := n,
limit := L, remaining := 0}`. -/
theorem c3_quota_check_monotonic (events : List Database.Analytics)
    (ip_hash : String) (today_start L : Nat) :
    (Database.get_shared_key_usage_today events ip_hash today_start < L →
      Database.check_shared_key_rate_limit events ip_hash today_start L
        = { allowed := true,
            used := Database.get_shared_key_usage_today events ip_hash today_start,
            limit := L,
            remaining := L - Database.get_shared_key_usage_today events ip_hash today_start }) ∧
    (L ≤ Database.get_shared_key_usage_today events ip_hash today_start →
      Database.check_shared_key_rate_limit events ip_hash today_start L
        = { allowed := false,
            used := Database.get_shared_key_usage_today events ip_hash today_start,
            limit := L, remaining := 0 }) := by
  constructor
  · intro h
    simp [Database.check_shared_key_rate_limit, h, Nat.zero_max]
  · intro h
    simp [Database.check_shared_key_rate_limit, Nat.zero_max,
      Nat.sub_eq_zero_of_le h, Nat.not_lt.mpr h]

/-- Witness for C3 at a concrete log: two translation events for hash "h"
today give usage 2; the check allows under ceiling 3 with remaining 1 and
rejects under ceiling 2 with remaining 0. -/
theorem c3_quota_check_monotonic_witness :
    (Database.get_shared_key_usage_today [sampleEvent "h" 5, sampleEvent "h" 7] "h" 0 < 3 ∧
      Database.check_shared_key_rate_limit [sampleEvent "h" 5, sampleEvent "h" 7] "h" 0 3
        = { allowed := true, used := 2, limit := 3, remaining := 1 }) ∧
    (2 ≤ Database.get_shared_key_usage_today [sampleEvent "h" 5, sampleEvent "h" 7] "h" 0 ∧
      Database.check_shared_key_rate_limit [sampleEvent "h" 5, sampleEvent "h" 7] "h" 0 2
        = { allowed := false, used := 2, limit := 2, remaining := 0 }) :=
  ⟨⟨by decide, (c3_quota_check_monotonic [sampleEvent "h" 5, sampleEvent "h" 7] "h" 0 3).1 (by decide)⟩,
   ⟨by decide, (c3_quota_check_monotonic [sampleEvent "h" 5, sampleEvent "h" 7] "h" 0 2).2 (by decide)⟩⟩

/-- C7: `hash_ip` is deterministic and yields a 64-character lower-case
hexadecimal digest; the rows built by `create_feedback` and
`create_analytics_event` store exactly that digest in `ip_hash` (and the
row types have no raw-IP column at all, so the raw IP is not observable in
stored records). -/
theorem c7_ip_hash_determinism_and_privacy (ip : String) :
    Database.hash_ip ip = Database.hash_ip ip ∧
    (Database.hash_ip ip).length = 64 ∧
    Sha256.isHexString (Database.hash_ip ip) = true ∧
    (∀ q r ft ty cat em now,
      (Database.create_feedback q r ft (some ip) ty cat em now).ip_hash
        = if ip != "" then some (Database.hash_ip ip) else none) ∧
    (∀ q r ft ty cat em now,
      (Database.create_feedback q r ft none ty cat em now).ip_hash = none) ∧
    (∀ events et q chit ua ep rt now,
      ((Database.create_analytics_event events et ip q chit ua ep rt now).2).ip_hash
        = Database.hash_ip ip) :=
  ⟨rfl, Sha256.hexdigest_length _, Sha256.hexdigest_isHex _,
   fun _ _ _ _ _ _ _ => rfl, fun _ _ _ _ _ _ _ => rfl,
   fun _ _ _ _ _ _ _ _ => rfl⟩

/-- C9: `get_cached_translation` yields absent (`none`) when caching is
unconfigured, when the Redis connection failed at startup, and when the
underlying read raises any exception; the failure outcome is literally the
miss outcome, so cache unavailability is indistinguishable from a miss and
no error propagates to the caller. -/
theorem c9_cache_lookup_total_on_failure (client : Option Cache.RedisStore)
    (e : String) (now : Nat) (text url cerr : String) :
    Cache.get_cached_translation none none now text = none ∧
    Cache.get_cached_translation client (some e) now text = none ∧
    Cache.get_cached_translation (Cache.init_redis url (Except.error cerr)) none now text = none ∧
    Cache.get_cached_translation client (some e) now text
      = Cache.get_cached_translation none none now text := by
  refine ⟨rfl, ?_, ?_, ?_⟩
  · cases client <;> rfl
  · by_cases hu : url = "" <;> simp [Cache.init_redis, hu, Cache.get_cached_translation]
  · cases client <;> rfl

/-- C10: the describing step's input is the reordered `translated_input`
when that is a non-empty string and the original `english_input` otherwise;
in particular, after a reorder whose `asl_gloss_order` is empty — including
on the full graph run — the instructor receives the original English. -/
theorem c10_describing_input_fallback (s : LangGraphASL.ASLState) :
    (∀ txt, s.translated_input = some txt → txt ≠ "" →
      LangGraphASL.instructorInput s = txt) ∧
    (s.translated_input = none → LangGraphASL.instructorInput s = s.english_input) ∧
    (s.translated_input = some "" → LangGraphASL.instructorInput s = s.english_input) ∧
    (∀ plan s2, s.grammar_plan = some plan → plan.asl_gloss_order = "" →
      LangGraphASL.reorder_node s = Except.ok s2 →
      LangGraphASL.instructorInput s2 = s.english_input) ∧
    (∀ english instructorLLM,
      LangGraphASL.invokeGraph (Except.ok ⟨true, ""⟩) instructorLLM english
        = Except.ok (LangGraphASL.sign_instructor_node instructorLLM
            { english_input := english, translated_input := some "",
              final_output := none, grammar_plan := some ⟨true, ""⟩, error := none })
      ∧ LangGraphASL.instructorInput
            { english_input := english, translated_input := some "",
              final_output := none, grammar_plan := some ⟨true, ""⟩, error := none }
          = english) := by
  refine ⟨?_, ?_, ?_, ?_, ?_⟩
  · intro txt htr hne
    have hb : (txt == "") = false := beq_eq_false_iff_ne.mpr hne
    simp [LangGraphASL.instructorInput, Py.orElseStr, htr, hb]
  · intro htr
    simp [LangGraphASL.instructorInput, Py.orElseStr, htr]
  · intro htr
    simp [LangGraphASL.instructorInput, Py.orElseStr, htr]
  · intro plan s2 hplan hempty hre
    simp [LangGraphASL.reorder_node, hplan] at hre
    subst hre
    simp [LangGraphASL.instructorInput, Py.orElseStr, hempty]
  · intro english instructorLLM
    exact ⟨rfl, rfl⟩

/-- Witness for C10 on concrete states: a non-empty reordered input is used
verbatim, an empty or missing one falls back to the original English, and
the empty-gloss reorder plan leads the full graph run to hand the original
English to the instructor. -/
theorem c10_describing_input_fallback_witness :
    ({ english_input := "hi", translated_input := some "HI THERE",
       final_output := none, grammar_plan := none,
       error := none : LangGraphASL.ASLState }.translated_input = some "HI THERE"
      ∧ "HI THERE" ≠ ""
      ∧ LangGraphASL.instructorInput
          { english_input := "hi", translated_input := some "HI THERE",
            final_output := none, grammar_plan := none, error := none } = "HI THERE") ∧
    ({ english_input := "hi", translated_input := some "",
       final_output := none, grammar_plan := none,
       error := none : LangGraphASL.ASLState }.translated_input = some ""
      ∧ LangGraphASL.instructorInput
          { english_input := "hi", translated_input := some "",
            final_output := none, grammar_plan := none, error := none } = "hi") :=
  ⟨⟨rfl, by decide,
    ((c10_describing_input_fallback _).1 "HI THERE" rfl (by decide))⟩,
   ⟨rfl, ((c10_describing_input_fallback _).2.2.1 rfl)⟩⟩

/-- C4: cache round-trip with case-fold normalization: queries with equal
case-folds share one cache key, and storing a translation under Q then
looking up Q' (cache available, before TTL expiry) returns exactly the
stored value. -/
theorem c4_cache_case_fold_round_trip (st : Cache.RedisStore) (Q Qp : String)
    (data : Json) (t0 t1 ttl : Nat)
    (hfold : Py.lower Q = Py.lower Qp) (httl : t1 < t0 + ttl) :
    Cache.generate_cache_key Q = Cache.generate_cache_key Qp ∧
    Cache.get_cached_translation
        (Cache.cache_translation (some st) none t0 ttl Q data).1 none t1 Qp
      = some data := by
  have hkey : Cache.generate_cache_key Q = Cache.generate_cache_key Qp := by
    simp [Cache.generate_cache_key, hfold]
  refine ⟨hkey, ?_⟩
  simp [Cache.cache_translation, Cache.get_cached_translation, Cache.redisGet,
    Cache.setex, hkey, httl]

/-- Witness for C4 at a concrete input: "Hello" and "hELLO" case-fold to the
same string, so the value stored under "Hello" at time 0 with TTL 3600 is
returned by a lookup of "hELLO" at time 10. -/
theorem c4_cache_case_fold_round_trip_witness :
    Py.lower "Hello" = Py.lower "hELLO" ∧ (10 : Nat) < 0 + 3600 ∧
    (Cache.generate_cache_key "Hello" = Cache.generate_cache_key "hELLO" ∧
     Cache.get_cached_translation
        (Cache.cache_translation (some (fun _ => none)) none 0 3600 "Hello" Json.null).1
        none 10 "hELLO"
       = some Json.null) :=
  ⟨by decide, by decide,
   c4_cache_case_fold_round_trip (fun _ => none) "Hello" "hELLO" Json.null 0 10 3600
     (by decide) (by decide)⟩

/-- C5: credential decision order on a cache miss: (1) a non-empty custom
header key is used with no quota check (the decision ignores the analytics
log); (2) otherwise a configured shared key runs the quota check and either
proceeds with the shared key or raises HTTP 429; (3) otherwise a truthy
default key from the environment is used; (4) otherwise HTTP 503 is
raised. -/
theorem c5_credential_decision_order (custom : Option String) (shared : String)
    (original : Option String) (events : List Database.Analytics)
    (ip_hash : String) (today_start L : Nat) :
    (∀ k, custom = some k → k ≠ "" →
      AppApi.decideApiKey custom shared original events ip_hash today_start L
          = AppApi.ApiKeyDecision.useCustom k ∧
      ∀ events2, AppApi.decideApiKey custom shared original events2 ip_hash today_start L
          = AppApi.decideApiKey custom shared original events ip_hash today_start L) ∧
    (Py.truthyOptStr custom = false → shared ≠ "" →
      (Database.check_shared_key_rate_limit events ip_hash today_start L).allowed = true →
      AppApi.applyKeyDecision
          (AppApi.decideApiKey custom shared original events ip_hash today_start L)
        = Except.ok (shared, true,
            some (Database.check_shared_key_rate_limit events ip_hash today_start L))) ∧
    (Py.truthyOptStr custom = false → shared ≠ "" →
      (Database.check_shared_key_rate_limit events ip_hash today_start L).allowed = false →
      ∃ d, AppApi.applyKeyDecision
          (AppApi.decideApiKey custom shared original events ip_hash today_start L)
        = Except.error { status := 429, detail := d }) ∧
    (Py.truthyOptStr custom = false → shared = "" → ∀ o, original = some o → o ≠ "" →
      AppApi.applyKeyDecision
          (AppApi.decideApiKey custom shared original events ip_hash today_start L)
        = Except.ok (o, false, none)) ∧
    (Py.truthyOptStr custom = false → shared = "" → Py.truthyOptStr original = false →
      ∃ d, AppApi.applyKeyDecision
          (AppApi.decideApiKey custom shared original events ip_hash today_start L)
        = Except.error { status := 503, detail := d }) := by
  refine ⟨?_, ?_, ?_, ?_, ?_⟩
  · intro k hck hk
    subst hck
    have hb : (k != "") = true := bne_iff_ne.mpr hk
    constructor
    · simp [AppApi.decideApiKey, Py.truthyOptStr, hb]
    · intro events2
      simp [AppApi.decideApiKey, Py.truthyOptStr, hb]
  · intro hc hs ha
    have hbs : (shared != "") = true := bne_iff_ne.mpr hs
    simp [AppApi.decideApiKey, hc, hbs, ha, AppApi.applyKeyDecision]
  · intro hc hs ha
    have hbs : (shared != "") = true := bne_iff_ne.mpr hs
    refine ⟨"Daily limit of translations reached. Add your own API key for unlimited access.", ?_⟩
    simp [AppApi.decideApiKey, hc, hbs, ha, AppApi.applyKeyDecision]
  · intro hc hs o ho hone
    subst hs
    subst ho
    have hto : Py.truthyOptStr (some o) = true := by
      simp [Py.truthyOptStr, bne_iff_ne.mpr hone]
    simp [AppApi.decideApiKey, hc, hto, AppApi.applyKeyDecision]
  · intro hc hs ho
    subst hs
    refine ⟨"Translation service unavailable. Please add your own API key.", ?_⟩
    simp [AppApi.decideApiKey, hc, ho, AppApi.applyKeyDecision]

/-- Witness for C5 at concrete inputs: a custom key wins outright, and with
no custom, shared or default key the request is rejected with a 503. -/
theorem c5_credential_decision_order_witness :
    AppApi.decideApiKey (some "ck") "sh" (some "og") [] "h" 0 10
      = AppApi.ApiKeyDecision.useCustom "ck" ∧
    (∃ d, AppApi.applyKeyDecision (AppApi.decideApiKey none "" none [] "h" 0 10)
      = Except.error { status := 503, detail := d }) :=
  ⟨((c5_credential_decision_order (some "ck") "sh" (some "og") [] "h" 0 10).1 "ck" rfl
      (by decide)).1,
   (c5_credential_decision_order none "" none [] "h" 0 10).2.2.2.2 rfl rfl rfl⟩

/-- C6: feedback typing invariant: a row created by the general endpoint
has no rating and no query (and type "general"); a row created by the
translation endpoint carries both its query and a rating that pydantic
validation restricts to "up" or "down" (and type "translation"). -/
theorem c6_feedback_typing_invariant (greq : AppApi.GeneralFeedbackRequest)
    (treq : AppApi.FeedbackRequest) (ip : String) (now : Nat)
    (hv : treq.validB = true) :
    (AppApi.submit_general_feedback greq ip now).rating = none ∧
    (AppApi.submit_general_feedback greq ip now).query = none ∧
    (AppApi.submit_general_feedback greq ip now).feedback_type = "general" ∧
    (AppApi.submit_feedback treq ip now).query = some treq.query ∧
    (AppApi.submit_feedback treq ip now).rating = some treq.rating ∧
    (AppApi.submit_feedback treq ip now).feedback_type = "translation" ∧
    (treq.rating = "up" ∨ treq.rating = "down") := by
  refine ⟨rfl, rfl, rfl, rfl, rfl, rfl, ?_⟩
  simp only [AppApi.FeedbackRequest.validB, Bool.and_eq_true, Bool.or_eq_true,
    beq_iff_eq, decide_eq_true_eq] at hv
  tauto

/-- Witness for C6 at concrete requests: a valid translation feedback
request stores its query and "up" rating, and a general feedback request
stores neither query nor rating. -/
theorem c6_feedback_typing_invariant_witness :
    ({ query := "hello", rating := "up",
       feedback_text := none : AppApi.FeedbackRequest }.validB = true) ∧
    (AppApi.submit_general_feedback
        { category := "bug", feedback_text := "the main menu is broken", email := none }
        "1.2.3.4" 0).rating = none ∧
    (AppApi.submit_feedback
        { query := "hello", rating := "up", feedback_text := none }
        "1.2.3.4" 0).rating = some "up" ∧
    (("up" : String) = "up" ∨ ("up" : String) = "down") :=
  ⟨by decide,
   (c6_feedback_typing_invariant
      { category := "bug", feedback_text := "the main menu is broken", email := none }
      { query := "hello", rating := "up", feedback_text := none } "1.2.3.4" 0
      (by decide)).1,
   (c6_feedback_typing_invariant
      { category := "bug", feedback_text := "the main menu is broken", email := none }
      { query := "hello", rating := "up", feedback_text := none } "1.2.3.4" 0
      (by decide)).2.2.2.2.1,
   (c6_feedback_typing_invariant
      { category := "bug", feedback_text := "the main menu is broken", email := none }
      { query := "hello", rating := "up", feedback_text := none } "1.2.3.4" 0
      (by decide)).2.2.2.2.2.2⟩

/-- C2: the claim says translation events of requests that supplied their
own credential do not count toward the shared-credential quota. On the
code they do count: a custom-key request is served via `useCustom` (no
quota check), yet its `log_translation` analytics event carries only the
caller's IP hash, event type "translation" and a timestamp — nothing
records which credential served it — and `get_shared_key_usage_today`
counts every such event, so the event raises the quota usage by one. -/
theorem c2_custom_key_requests_counted_by_quota (events : List Database.Analytics)
    (ip text k shared : String) (original ua : Option String) (rt : Option Nat)
    (now today_start daily_limit : Nat)
    (hk : k ≠ "") (hnow : today_start ≤ now) :
    AppApi.decideApiKey (some k) shared original events (Database.hash_ip ip)
        today_start daily_limit
      = AppApi.ApiKeyDecision.useCustom k ∧
    Database.get_shared_key_usage_today
        (AppApi.log_translation events ip text ua rt now) (Database.hash_ip ip) today_start
      = Database.get_shared_key_usage_today events (Database.hash_ip ip) today_start + 1 := by
  constructor
  · have hb : (k != "") = true := bne_iff_ne.mpr hk
    simp [AppApi.decideApiKey, Py.truthyOptStr, hb]
  · simp [AppApi.log_translation, Database.create_analytics_event,
      Database.get_shared_key_usage_today, List.filter_append, hnow]

/-- Witness for C2 at a concrete input: starting from an empty log, one
successful custom-key translation from 9.9.9.9 at time 5 makes the quota
usage for that IP hash go from 0 to 1. -/
theorem c2_custom_key_requests_counted_by_quota_witness :
    ("ck" : String) ≠ "" ∧ (0 : Nat) ≤ 5 ∧
    (AppApi.decideApiKey (some "ck") "sh" none [] (Database.hash_ip "9.9.9.9") 0 10
        = AppApi.ApiKeyDecision.useCustom "ck" ∧
     Database.get_shared_key_usage_today
        (AppApi.log_translation [] "9.9.9.9" "hello" none none 5)
        (Database.hash_ip "9.9.9.9") 0
       = Database.get_shared_key_usage_today [] (Database.hash_ip "9.9.9.9") 0 + 1) :=
  ⟨by decide, by decide,
   c2_custom_key_requests_counted_by_quota [] "9.9.9.9" "hello" "ck" "sh" none none none
     5 0 10 (by decide) (by decide)⟩

/-- C8 counterexample: with GOOGLE_API_KEY set to the empty string before
the request and a different key selected, the finally block takes the
falsy-restore branch and pops the variable, so afterwards it is unset
rather than equal to its pre-request value. -/
theorem c8_env_restore_counterexample :
    Py.neOpt "sk-custom" (some "") = true ∧
    AppApi.env_after_translate (some "") "sk-custom" (Except.ok ()) = none ∧
    AppApi.env_after_translate (some "") "sk-custom" (Except.ok ()) ≠ some "" := by
  refine ⟨rfl, rfl, ?_⟩
  decide

/-- C8 amended: whether the invocation returns or raises, after the bracket
GOOGLE_API_KEY equals its pre-request value whenever that value was unset
or non-empty; when it was set to the empty string it is unset afterwards
(truthiness conflates emptiness with absence in the restore branch). -/
theorem c8_env_restore_amended (original : Option String) (k : String)
    (o1 o2 : Except String Unit) :
    AppApi.env_after_translate original k o1 = AppApi.env_after_translate original k o2 ∧
    (Py.neOpt k original = true →
      ((original = none → AppApi.env_after_translate original k o1 = none) ∧
       (∀ s, original = some s → s ≠ "" → AppApi.env_after_translate original k o1 = some s) ∧
       (original = some "" → AppApi.env_after_translate original k o1 = none))) := by
  refine ⟨rfl, ?_⟩
  intro hne
  refine ⟨?_, ?_, ?_⟩
  · intro h0; subst h0
    simp [AppApi.env_after_translate, hne]
  · intro s hs hsne
    subst hs
    have hb : (s != "") = true := bne_iff_ne.mpr hsne
    simp [AppApi.env_after_translate, hne, hb]
  · intro h0; subst h0
    simp [AppApi.env_after_translate, hne]

/-- Witness for C8 amended at a concrete input: with a non-empty original
key, the environment is restored identically whether the invocation
returned or raised. -/
theorem c8_env_restore_amended_witness :
    Py.neOpt "sk" (some "orig") = true ∧
    AppApi.env_after_translate (some "orig") "sk" (Except.ok ())
      = AppApi.env_after_translate (some "orig") "sk" (Except.error "boom") ∧
    AppApi.env_after_translate (some "orig") "sk" (Except.ok ()) = some "orig" :=
  ⟨by decide,
   (c8_env_restore_amended (some "orig") "sk" (Except.ok ()) (Except.error "boom")).1,
   ((c8_env_restore_amended (some "orig") "sk" (Except.ok ()) (Except.ok ())).2
      (by decide)).2.1 "orig" rfl (by decide)⟩
